import Mathlib

/-!
Verification of the Delfos MCP server tool handlers (src/delfos_mcp.py).

The handlers are shallowly embedded as Lean functions over a `Database`
structure that models the driver-level semantics of the SQL statements the
handlers issue.  Each handler returns its Python result (`Except Err String`,
where `Except.error` models a propagating Python exception) together with the
trace of driver-visible events it performs (connection open/close, statement
execution, commit, uuid/timestamp generation), in program order.  A statement
whose execution raises terminates the trace at that point, exactly as an
uncaught Python exception abandons the rest of the handler body.
-/

namespace Delfos

/-- A dynamically typed database value, as surfaced by the pyodbc driver:
text, number, or SQL NULL (Python `None`). -/
inductive Value where
  | str (s : String)
  | num (n : Int)
  | null
deriving DecidableEq, Repr

/-- Python `str(v)` conversion of a driver value: `str(None)` is `"None"`. -/
def pyStr : Value → String
  | .str s => s
  | .num n => toString n
  | .null => "None"

/-- Python `repr(v)` of a driver value, as it appears inside a row's tuple
representation. -/
def pyRepr : Value → String
  | .str s => "'" ++ s ++ "'"
  | .num n => toString n
  | .null => "None"

/-- A fetched result row: the ordered column values. -/
abbrev Row := List Value

/-- Python `str(row)` for a pyodbc row: the tuple-style representation,
with the trailing comma of a one-element tuple. -/
def rowStr (r : Row) : String :=
  "(" ++ String.intercalate ", " (r.map pyRepr) ++
    (if r.length = 1 then ",)" else ")")

/-- Python `sep.join(parts)`. -/
def pyJoin (sep : String) : List String → String
  | [] => ""
  | [x] => x
  | x :: y :: ys => x ++ sep ++ pyJoin sep (y :: ys)

/-- A driver-level (pyodbc) error raised while executing a statement. -/
inductive DBError where
  | invalidObject (name : String)
  | execError (msg : String)
deriving DecidableEq, Repr

/-- Errors a tool invocation can terminate with.  The embedded code only
ever produces `dbErr` (a propagating driver exception); `validationError`
is the spec's sanitization failure, present in the type so that its absence
on every path of the code can be stated. -/
inductive Err where
  | dbErr (e : DBError)
  | validationError (msg : String)
deriving DecidableEq, Repr

/-- Whether a tool outcome is a `ValidationError` failure. -/
def isValErr : Except Err String → Bool
  | .error (.validationError _) => true
  | _ => false

/-- Driver-visible events of one tool invocation, in program order. -/
inductive Event where
  | openConn
  | execSQL (text : String)
  | genUuid
  | genTime
  | commit
  | closeConn
deriving DecidableEq, Repr

/-- The record written by one parameterized insert of
`insert_agent_output_batch`: the ten bound columns. -/
structure AgentOutputRow where
  run_id : String
  user_id : String
  question : String
  x_value : Value
  y_value : Value
  series : Value
  category : Value
  metric_name : String
  visual_hint : String
  created_at : String
deriving DecidableEq, Repr

/-- One element of the `results` list passed to `insert_agent_output_batch`:
a Python dict queried with `row.get(k)`, so every key is optional. -/
structure ResultRow where
  x_value : Option Value := none
  y_value : Option Value := none
  series : Option Value := none
  category : Option Value := none
deriving DecidableEq, Repr

/-- `row.get(k)` bound as a SQL parameter: a missing key binds NULL. -/
def optVal : Option Value → Value
  | none => .null
  | some v => v

/-- Driver-level semantics of the database the handlers talk to.

* `schemaOf t` / `primaryKeysOf t`: rows of the catalog-view queries issued
  by `get_table_schema` / `get_primary_keys` for `TABLE_NAME = t`; a table
  absent from the catalog yields `[]` (catalog views never raise for an
  unknown name).
* `salesTables t`: whether `[SalesLT].[t]` names an existing table; a direct
  `FROM [SalesLT].[t]` against a missing table raises `invalidObject`.
* `columnOf t c`: whether column `c` exists on `[SalesLT].[t]`.
* `rowCountOf` / `distinctOf`: the data answers when the objects exist.
* `execQ q`: outcome of executing a caller-supplied statement `q` verbatim.
* `insertOutcome r`: outcome of the parameterized insert binding row `r`. -/
structure Database where
  schemaOf : String → List (String × String)
  primaryKeysOf : String → List String
  salesTables : String → Bool
  columnOf : String → String → Bool
  rowCountOf : String → Nat
  distinctOf : String → String → List Value
  execQ : String → Except DBError (List Row)
  insertOutcome : AgentOutputRow → Except DBError Unit

/-- The SQL text `get_table_schema` interpolates the raw table name into. -/
def schemaQueryText (t : String) : String :=
  "SELECT COLUMN_NAME, DATA_TYPE FROM INFORMATION_SCHEMA.COLUMNS WHERE TABLE_NAME = '"
    ++ t ++ "'"

/-- The SQL text `get_primary_keys` interpolates the raw table name into. -/
def primaryKeysQueryText (t : String) : String :=
  "SELECT COLUMN_NAME FROM INFORMATION_SCHEMA.KEY_COLUMN_USAGE WHERE OBJECTPROPERTY(OBJECT_ID(CONSTRAINT_SCHEMA + '.' + CONSTRAINT_NAME), 'IsPrimaryKey') = 1 AND TABLE_NAME = '"
    ++ t ++ "'"

/-- The SQL text `get_table_row_count` interpolates the raw table name into. -/
def rowCountQueryText (t : String) : String :=
  "SELECT COUNT(*) AS TotalRows FROM [SalesLT].[" ++ t ++ "]"

/-- The SQL text `get_distinct_values` interpolates the raw identifiers into. -/
def distinctQueryText (t c : String) : String :=
  "SELECT DISTINCT [" ++ c ++ "] FROM [SalesLT].[" ++ t ++ "]"

/-- The parameterized INSERT statement of `insert_agent_output_batch`. -/
def insertQueryText : String :=
  "INSERT INTO [dbo].[agent_output] ([run_id], [user_id], [question], [x_value], [y_value], [series], [category], [metric_name], [visual_hint], [created_at]) VALUES (?, ?, ?, ?, ?, ?, ?, ?, ?, ?)"

/-- `execute_sql_query(query)`: open a connection, execute the statement
verbatim, fetch all rows, close, and join the row representations with
newlines; an empty joined string becomes the sentinel.  A driver error
propagates past the close. -/
def execute_sql_query (db : Database) (query : String) :
    Except Err String × List Event :=
  let evs := [Event.openConn, Event.execSQL query]
  match db.execQ query with
  | .error e => (.error (.dbErr e), evs)
  | .ok results =>
    let evs := evs ++ [Event.closeConn]
    let result_str := pyJoin "\n" (results.map rowStr)
    (.ok (if result_str = "" then "No results found." else result_str), evs)

/-- `get_table_schema(table_name)`: catalog-view query for the column list;
the empty result produces the not-found message, otherwise `name: type`
lines are newline-joined. -/
def get_table_schema (db : Database) (table_name : String) :
    Except Err String × List Event :=
  let evs := [Event.openConn, Event.execSQL (schemaQueryText table_name),
    Event.closeConn]
  let columns := db.schemaOf table_name
  if columns.isEmpty then
    (.ok ("No schema found for table '" ++ table_name ++ "'."), evs)
  else
    (.ok (pyJoin "\n" (columns.map fun col => col.1 ++ ": " ++ col.2)), evs)

/-- `get_primary_keys(table_name)`: catalog-view query for the key columns;
the empty result produces the not-found message, otherwise the column names
are comma-joined. -/
def get_primary_keys (db : Database) (table_name : String) :
    Except Err String × List Event :=
  let evs := [Event.openConn, Event.execSQL (primaryKeysQueryText table_name),
    Event.closeConn]
  let keys := db.primaryKeysOf table_name
  if keys.isEmpty then
    (.ok ("No primary keys found for table '" ++ table_name ++ "'."), evs)
  else
    (.ok (pyJoin ", " keys), evs)

/-- `get_table_row_count(table_name)`: `COUNT(*)` over `[SalesLT].[t]`.
A missing table makes the execute raise `invalidObject`, which propagates
before the close; otherwise the formatted count is returned. -/
def get_table_row_count (db : Database) (table_name : String) :
    Except Err String × List Event :=
  let evs := [Event.openConn, Event.execSQL (rowCountQueryText table_name)]
  if db.salesTables table_name then
    let evs := evs ++ [Event.closeConn]
    (.ok ("Table '" ++ table_name ++ "' has "
      ++ toString (db.rowCountOf table_name) ++ " rows."), evs)
  else
    (.error (.dbErr (.invalidObject table_name)), evs)

/-- `get_distinct_values(table_name, column_name)`: `SELECT DISTINCT` over
`[SalesLT].[t]`.  A missing table or column makes the execute raise before
the close; an empty value set produces the not-found message; otherwise each
row's first column is rendered with `str` and the lines newline-joined. -/
def get_distinct_values (db : Database) (table_name column_name : String) :
    Except Err String × List Event :=
  let evs := [Event.openConn,
    Event.execSQL (distinctQueryText table_name column_name)]
  if db.salesTables table_name && db.columnOf table_name column_name then
    let values := db.distinctOf table_name column_name
    let evs := evs ++ [Event.closeConn]
    if values.isEmpty then
      (.ok ("No distinct values found in column '" ++ column_name
        ++ "' of table '" ++ table_name ++ "'."), evs)
    else
      (.ok (pyJoin "\n" (values.map pyStr)), evs)
  else
    (.error (.dbErr (.invalidObject (table_name ++ "." ++ column_name))), evs)

/-- The per-row loop of `insert_agent_output_batch`: execute one
parameterized insert per result row, stopping at the first driver error.
Returns the events, the rows written so far, the running `rows_inserted`
count, and the propagating error if any. -/
def insertLoop (db : Database) (mk : ResultRow → AgentOutputRow) :
    List ResultRow → List Event × List AgentOutputRow × Nat × Option DBError
  | [] => ([], [], 0, none)
  | r :: rs =>
    let row := mk r
    match db.insertOutcome row with
    | .error e => ([Event.execSQL insertQueryText], [], 0, some e)
    | .ok _ =>
      let (evs, ws, n, err) := insertLoop db mk rs
      (Event.execSQL insertQueryText :: evs, row :: ws, n + 1, err)

/-- The ten-parameter tuple bound for one result row: the shared `run_id`
and `created_at` of the invocation together with the caller-supplied fields
and the row's `dict.get` lookups (a missing key binds NULL). -/
def mkAgentRow (user_id question metric_name visual_hint run_id
    created_at : String) (r : ResultRow) : AgentOutputRow :=
  { run_id := run_id, user_id := user_id, question := question,
    x_value := optVal r.x_value, y_value := optVal r.y_value,
    series := optVal r.series, category := optVal r.category,
    metric_name := metric_name, visual_hint := visual_hint,
    created_at := created_at }

/-- `insert_agent_output_batch(user_id, question, results, metric_name,
visual_hint)`.  The single uuid draw and the single timestamp draw of the
invocation are passed in as `run_id` and `created_at`, recorded by the
`genUuid`/`genTime` events; every row binds the same ten parameters built
from that shared pair by `mkAgentRow`; commit follows the loop; a row
failure propagates before commit and close. -/
def insert_agent_output_batch (db : Database) (user_id question : String)
    (results : List ResultRow) (metric_name visual_hint : String)
    (run_id created_at : String) :
    Except Err String × List Event × List AgentOutputRow :=
  let evs := [Event.openConn, Event.genUuid, Event.genTime]
  let mk := mkAgentRow user_id question metric_name visual_hint run_id
    created_at
  let (ievs, written, n, err) := insertLoop db mk results
  match err with
  | some e => (.error (.dbErr e), evs ++ ievs, written)
  | none =>
    (.ok ("Inserted " ++ toString n ++ " rows successfully. run_id: "
        ++ run_id),
      evs ++ ievs ++ [Event.commit, Event.closeConn], written)

/-- The fixed `VISUAL_PAGE_MAP` of `generate_powerbi_url`. -/
def VISUAL_PAGE_MAP : List (String × String) :=
  [("linea", "Line"), ("barras", "Bar"),
   ("barras_agrupadas", "StackedBar"), ("pie", "PieChart")]

/-- `VISUAL_PAGE_MAP.get(visual_hint, "ReportSectionBarras")`. -/
def pageNameOf (visual_hint : String) : String :=
  match VISUAL_PAGE_MAP.lookup visual_hint with
  | some p => p
  | none => "ReportSectionBarras"

/-- `generate_powerbi_url(run_id, visual_hint)`, with the two environment
variables it reads (`WORKSPACE_ID`, `REPORT_ID`) passed explicitly.  The
f-string interpolates `run_id` verbatim into the filter expression; only the
two literal spaces around `eq` are pre-escaped as `%20`. -/
def generate_powerbi_url (workspace_id report_id run_id visual_hint : String) :
    String :=
  "https://app.powerbi.com/groups/" ++ workspace_id ++ "/reports/"
    ++ report_id ++ "?pageName=" ++ pageNameOf visual_hint
    ++ "&filter=agent_output/run_id%20eq%20'" ++ run_id ++ "'"

/-- `generate_powerbi_url` in the uniform tool shape of the other handlers:
it takes the database like every tool invocation context does, but its body
performs no driver event and always succeeds. -/
def generate_powerbi_url_tool (db : Database)
    (workspace_id report_id run_id visual_hint : String) :
    Except Err String × List Event :=
  (.ok (generate_powerbi_url workspace_id report_id run_id visual_hint), [])

/-- A character admitted by the spec's identifier allow-list `[A-Za-z0-9_]`. -/
def isIdentChar (c : Char) : Bool :=
  ('A' ≤ c && c ≤ 'Z') || ('a' ≤ c && c ≤ 'z') || ('0' ≤ c && c ≤ '9')
    || c = '_'

/-- Whether a name contains a character outside `[A-Za-z0-9_]`. -/
def hasBadChar (s : String) : Bool :=
  s.toList.any fun c => !(isIdentChar c)

/-- Value of a hex digit, for percent-decoding. -/
def hexVal (c : Char) : Option Nat :=
  if '0' ≤ c && c ≤ '9' then some (c.toNat - '0'.toNat)
  else if 'A' ≤ c && c ≤ 'F' then some (c.toNat - 'A'.toNat + 10)
  else if 'a' ≤ c && c ≤ 'f' then some (c.toNat - 'a'.toNat + 10)
  else none

/-- Percent-decoding on the character list: `%XY` with hex digits decodes to
the byte `16*X + Y`; anything else passes through. -/
def percentDecodeList : List Char → List Char
  | [] => []
  | [c] => [c]
  | [c₁, c₂] => [c₁, c₂]
  | c :: h₁ :: h₂ :: rest =>
    if c = '%' then
      match hexVal h₁, hexVal h₂ with
      | some a, some b => Char.ofNat (16 * a + b) :: percentDecodeList rest
      | _, _ => c :: percentDecodeList (h₁ :: h₂ :: rest)
    else c :: percentDecodeList (h₁ :: h₂ :: rest)

/-- URL percent-decoding of a string (the decoding the spec's round-trip
property applies to the filter value). -/
def percentDecode (s : String) : String :=
  String.mk (percentDecodeList s.toList)

/-- The suffix of `l` that follows the first occurrence of the marker
`pat`; `[]` when the marker does not occur. -/
def afterMarker (pat : List Char) : List Char → List Char
  | [] => []
  | c :: rest =>
    if pat.isPrefixOf (c :: rest) then (c :: rest).drop pat.length
    else afterMarker pat rest

/-- The filter value of a generated URL: everything after `&filter=`. -/
def filterSegment (url : String) : String :=
  String.mk (afterMarker "&filter=".toList url.toList)

/-- The run-identifier field of a generated URL: the filter value's text
between `%20eq%20'` and the closing quote. -/
def runIdField (url : String) : String :=
  String.mk ((afterMarker "%20eq%20'".toList (filterSegment url).toList).dropLast)

/-! ### Concrete databases used to evaluate the handlers -/

/-- A database with an empty catalog: `SELECT 1` succeeds with one one-column
row, every other caller statement raises, every insert succeeds. -/
def dbA : Database where
  schemaOf := fun _ => []
  primaryKeysOf := fun _ => []
  salesTables := fun _ => false
  columnOf := fun _ _ => false
  rowCountOf := fun _ => 0
  distinctOf := fun _ _ => []
  execQ := fun q =>
    if q = "SELECT 1" then .ok [[Value.num 1]] else .error (.execError "syntax")
  insertOutcome := fun _ => .ok ()

/-- `dbA` with every parameterized insert failing at the driver. -/
def dbB : Database :=
  { dbA with insertOutcome := fun _ => .error (.execError "write failed") }

/-- `dbA` with one table `Product` whose every column holds the distinct
values `'Red'` and NULL, and with populated catalog rows for it. -/
def dbC : Database :=
  { dbA with
    salesTables := fun t => t == "Product"
    columnOf := fun _ _ => true
    schemaOf := fun t => if t = "Product" then [("Color", "nvarchar")] else []
    primaryKeysOf := fun t => if t = "Product" then ["ProductID"] else []
    rowCountOf := fun _ => 2
    distinctOf := fun _ _ => [Value.str "Red", Value.null] }

/-! ### Helper lemmas -/

theorem rowStr_ne_empty (r : Row) : rowStr r ≠ "" := by
  intro h
  have h2 := congrArg String.data h
  simp only [rowStr, String.data_append] at h2
  simp at h2

theorem pyJoin_cons_ne_empty (sep x : String) (xs : List String) (hx : x ≠ "") :
    pyJoin sep (x :: xs) ≠ "" := by
  cases xs with
  | nil => simpa [pyJoin] using hx
  | cons y ys =>
    intro h
    have h2 := congrArg String.data h
    simp only [pyJoin, String.data_append] at h2
    have hx0 : x.data = [] := (List.append_eq_nil.mp (List.append_eq_nil.mp h2).1).1
    exact hx (String.ext hx0)

theorem insertLoop_all_ok (db : Database) (mk : ResultRow → AgentOutputRow)
    (rs : List ResultRow) (h : ∀ r ∈ rs, db.insertOutcome (mk r) = .ok ()) :
    insertLoop db mk rs =
      (rs.map fun _ => Event.execSQL insertQueryText, rs.map mk, rs.length,
        none) := by
  induction rs with
  | nil => rfl
  | cons r rest ih =>
    have h1 : db.insertOutcome (mk r) = .ok () := h r (by simp)
    have h2 : ∀ x ∈ rest, db.insertOutcome (mk x) = .ok () :=
      fun x hx => h x (by simp [hx])
    simp [insertLoop, h1, ih h2]

/-! ### Claims -/

/-- C7: for every query string, `execute_sql_query` returns the sentinel
`"No results found."` exactly when the fetched row set is empty, and
otherwise the rows' textual representations joined by newlines, one line
per row in fetch order. -/
theorem execute_sql_query_renders_rows (db : Database) (q : String)
    (rows : List Row) (h : db.execQ q = .ok rows) :
    (execute_sql_query db q).1 =
      .ok (if rows = [] then "No results found."
        else pyJoin "\n" (rows.map rowStr)) := by
  unfold execute_sql_query
  rw [h]
  cases rows with
  | nil => simp [pyJoin]
  | cons r rs =>
    have hne : pyJoin "\n" (rowStr r :: rs.map rowStr) ≠ "" :=
      pyJoin_cons_ne_empty "\n" (rowStr r) (rs.map rowStr) (rowStr_ne_empty r)
    simp [hne]

/-- Witness for C7 at the query `SELECT 1` on `dbA`, which fetches the single
row `(1,)`. -/
theorem execute_sql_query_renders_rows_witness :
    dbA.execQ "SELECT 1" = .ok [[Value.num 1]] ∧
    (execute_sql_query dbA "SELECT 1").1 =
      .ok (if ([[Value.num 1]] : List Row) = [] then "No results found."
        else pyJoin "\n" ([[Value.num 1]].map rowStr)) :=
  ⟨rfl, execute_sql_query_renders_rows dbA "SELECT 1" [[Value.num 1]] rfl⟩

/-- C1: evaluation of the code at a failing input.  On the success path the
connection-close step runs exactly once, but when the execution of the SQL
statement raises (a failing query, or a failing row insert in
`insert_agent_output_batch`), the close step never runs — there is no
try/finally around the handler bodies — so the connection leaks, contrary
to the claim that it is closed exactly once on every exit path. -/
theorem connection_close_skipped_on_exception :
    (execute_sql_query dbA "SELECT 1").2.count Event.closeConn = 1 ∧
    (get_table_schema dbA "Missing").2.count Event.closeConn = 1 ∧
    (execute_sql_query dbA "BAD SQL").2.count Event.closeConn = 0 ∧
    (execute_sql_query dbA "BAD SQL").1 =
      .error (.dbErr (.execError "syntax")) ∧
    (insert_agent_output_batch dbB "u@x" "q?"
        [{ x_value := some (.str "US"), y_value := some (.num 7) }]
        "sales" "pie" "RID" "TS").2.1.count Event.closeConn = 0 := by
  refine ⟨rfl, rfl, rfl, rfl, rfl⟩

/-- C2 counterexample: on the empty-catalog database `dbA`, the table
`NoSuchTable` is absent, yet `get_table_row_count` and `get_distinct_values`
raise a driver error (invalid object) instead of returning a documented
"not found" message — refuting the claim that all four operations return
such a message rather than raising. -/
theorem missing_table_raises_counterexample :
    dbA.salesTables "NoSuchTable" = false ∧
    (get_table_row_count dbA "NoSuchTable").1 =
      .error (.dbErr (.invalidObject "NoSuchTable")) ∧
    (get_distinct_values dbA "NoSuchTable" "Color").1 =
      .error (.dbErr (.invalidObject "NoSuchTable.Color")) := by
  refine ⟨rfl, rfl, rfl⟩

/-- C2 amended: for every table name absent from the catalog, the two
catalog-view operations `get_table_schema` and `get_primary_keys` return
their documented "not found" messages, while `get_table_row_count` and
`get_distinct_values` — which query the table directly — propagate a
driver error instead. -/
theorem absent_table_behavior (db : Database) (t c : String)
    (hs : db.schemaOf t = []) (hk : db.primaryKeysOf t = [])
    (he : db.salesTables t = false) :
    (get_table_schema db t).1 =
      .ok ("No schema found for table '" ++ t ++ "'.") ∧
    (get_primary_keys db t).1 =
      .ok ("No primary keys found for table '" ++ t ++ "'.") ∧
    (get_table_row_count db t).1 = .error (.dbErr (.invalidObject t)) ∧
    (get_distinct_values db t c).1 =
      .error (.dbErr (.invalidObject (t ++ "." ++ c))) := by
  unfold get_table_schema get_primary_keys get_table_row_count
    get_distinct_values
  simp [hs, hk, he]

/-- Witness for C2's amended claim at the absent table `NoSuchTable` of
`dbA`. -/
theorem absent_table_behavior_witness :
    (dbA.schemaOf "NoSuchTable" = [] ∧ dbA.primaryKeysOf "NoSuchTable" = [] ∧
      dbA.salesTables "NoSuchTable" = false) ∧
    ((get_table_schema dbA "NoSuchTable").1 =
      .ok ("No schema found for table '" ++ "NoSuchTable" ++ "'.") ∧
    (get_primary_keys dbA "NoSuchTable").1 =
      .ok ("No primary keys found for table '" ++ "NoSuchTable" ++ "'.") ∧
    (get_table_row_count dbA "NoSuchTable").1 =
      .error (.dbErr (.invalidObject "NoSuchTable")) ∧
    (get_distinct_values dbA "NoSuchTable" "Color").1 =
      .error (.dbErr (.invalidObject ("NoSuchTable" ++ "." ++ "Color")))) :=
  ⟨⟨rfl, rfl, rfl⟩,
    absent_table_behavior dbA "NoSuchTable" "Color" rfl rfl rfl⟩

theorem count_in_map_const (e x : Event) (rs : List ResultRow) (h : e ≠ x) :
    (rs.map fun _ => x).count e = 0 := by
  rw [List.count_eq_zero]
  intro hm
  obtain ⟨r, -, hr⟩ := List.mem_map.mp hm
  exact h hr.symm

/-- A sample two-row batch for evaluating `insert_agent_output_batch`. -/
def sampleBatch : List ResultRow :=
  [{ x_value := some (.str "United States"), y_value := some (.num 123),
     category := some (.str "United States") },
   { x_value := some (.str "Canada"), y_value := some (.num 45),
     category := some (.str "Canada") }]

/-- C3: a fully successful batch of N rows binds the one generated `run_id`
and the one generated `created_at` identically in all N written rows,
draws the uuid exactly once, commits exactly once after all the inserts,
and returns the confirmation string reporting N and the `run_id`. -/
theorem insert_batch_shared_run_id (db : Database)
    (u q m v rid ts : String) (results : List ResultRow)
    (h : ∀ r ∈ results,
      db.insertOutcome (mkAgentRow u q m v rid ts r) = .ok ()) :
    insert_agent_output_batch db u q results m v rid ts =
      (.ok ("Inserted " ++ toString results.length
          ++ " rows successfully. run_id: " ++ rid),
        [Event.openConn, Event.genUuid, Event.genTime]
          ++ (results.map fun _ => Event.execSQL insertQueryText)
          ++ [Event.commit, Event.closeConn],
        results.map (mkAgentRow u q m v rid ts)) ∧
    (∀ w ∈ (insert_agent_output_batch db u q results m v rid ts).2.2,
      w.run_id = rid ∧ w.created_at = ts) ∧
    (insert_agent_output_batch db u q results m v rid ts).2.2.length =
      results.length ∧
    (insert_agent_output_batch db u q results m v rid ts).2.1.count
      Event.genUuid = 1 ∧
    (insert_agent_output_batch db u q results m v rid ts).2.1.count
      Event.commit = 1 := by
  have hloop := insertLoop_all_ok db (mkAgentRow u q m v rid ts) results h
  have hmain : insert_agent_output_batch db u q results m v rid ts =
      (.ok ("Inserted " ++ toString results.length
          ++ " rows successfully. run_id: " ++ rid),
        [Event.openConn, Event.genUuid, Event.genTime]
          ++ (results.map fun _ => Event.execSQL insertQueryText)
          ++ [Event.commit, Event.closeConn],
        results.map (mkAgentRow u q m v rid ts)) := by
    simp only [insert_agent_output_batch]
    rw [hloop]
  refine ⟨hmain, ?_, ?_, ?_, ?_⟩
  · rw [hmain]
    intro w hw
    simp only [List.mem_map] at hw
    obtain ⟨r, -, hr⟩ := hw
    rw [← hr]
    exact ⟨rfl, rfl⟩
  · rw [hmain]
    simp
  · rw [hmain]
    simp [List.count_append, List.count_cons, List.count_replicate]
  · rw [hmain]
    simp [List.count_append, List.count_cons, List.count_replicate]

/-- Witness for C3 at a two-row batch on `dbA`. -/
theorem insert_batch_shared_run_id_witness :
    (∀ r ∈ sampleBatch,
      dbA.insertOutcome
        (mkAgentRow "u@x" "avg?" "sales" "pie" "RID-1" "TS0" r) = .ok ()) ∧
    (insert_agent_output_batch dbA "u@x" "avg?" sampleBatch "sales" "pie"
        "RID-1" "TS0" =
      (.ok ("Inserted " ++ toString sampleBatch.length
          ++ " rows successfully. run_id: " ++ "RID-1"),
        [Event.openConn, Event.genUuid, Event.genTime]
          ++ (sampleBatch.map fun _ => Event.execSQL insertQueryText)
          ++ [Event.commit, Event.closeConn],
        sampleBatch.map (mkAgentRow "u@x" "avg?" "sales" "pie" "RID-1"
          "TS0")) ∧
    (∀ w ∈ (insert_agent_output_batch dbA "u@x" "avg?" sampleBatch "sales"
        "pie" "RID-1" "TS0").2.2,
      w.run_id = "RID-1" ∧ w.created_at = "TS0") ∧
    (insert_agent_output_batch dbA "u@x" "avg?" sampleBatch "sales" "pie"
      "RID-1" "TS0").2.2.length = sampleBatch.length ∧
    (insert_agent_output_batch dbA "u@x" "avg?" sampleBatch "sales" "pie"
      "RID-1" "TS0").2.1.count Event.genUuid = 1 ∧
    (insert_agent_output_batch dbA "u@x" "avg?" sampleBatch "sales" "pie"
      "RID-1" "TS0").2.1.count Event.commit = 1) :=
  ⟨fun r _ => rfl,
    insert_batch_shared_run_id dbA "u@x" "avg?" "sales" "pie" "RID-1" "TS0"
      sampleBatch (fun r _ => rfl)⟩

/-- C8: an empty `results` batch executes no insert statement, still draws
the uuid and the timestamp, still commits once, closes the connection, and
reports 0 rows inserted together with the generated `run_id`. -/
theorem insert_empty_batch (db : Database) (u q m v rid ts : String) :
    insert_agent_output_batch db u q [] m v rid ts =
      (.ok ("Inserted 0 rows successfully. run_id: " ++ rid),
        [Event.openConn, Event.genUuid, Event.genTime, Event.commit,
          Event.closeConn], []) := rfl

/-- C4 counterexample: a table name full of characters outside
`[A-Za-z0-9_]` does not make `get_table_schema` fail with a
`ValidationError` before issuing SQL; instead the raw name is interpolated
into the statement, the statement is issued, and the call returns normally. -/
theorem sanitization_absent_counterexample :
    hasBadChar "x]; DROP TABLE t--" = true ∧
    Event.execSQL (schemaQueryText "x]; DROP TABLE t--") ∈
      (get_table_schema dbA "x]; DROP TABLE t--").2 ∧
    isValErr (get_table_schema dbA "x]; DROP TABLE t--").1 = false := by
  refine ⟨by decide, by decide, rfl⟩

/-- C4 amended: the four identifier-taking operations perform no identifier
validation at all — for every table/column input containing characters
outside `[A-Za-z0-9_]`, each operation still issues its SQL statement with
the raw name interpolated into the text, and no path produces a
`ValidationError`. -/
theorem no_identifier_validation (db : Database) (t c : String)
    (h : hasBadChar t = true) :
    (Event.execSQL (schemaQueryText t) ∈ (get_table_schema db t).2 ∧
      isValErr (get_table_schema db t).1 = false) ∧
    (Event.execSQL (primaryKeysQueryText t) ∈ (get_primary_keys db t).2 ∧
      isValErr (get_primary_keys db t).1 = false) ∧
    (Event.execSQL (rowCountQueryText t) ∈ (get_table_row_count db t).2 ∧
      isValErr (get_table_row_count db t).1 = false) ∧
    (Event.execSQL (distinctQueryText t c) ∈ (get_distinct_values db t c).2 ∧
      isValErr (get_distinct_values db t c).1 = false) := by
  unfold get_table_schema get_primary_keys get_table_row_count
    get_distinct_values
  dsimp only
  refine ⟨⟨?_, ?_⟩, ⟨?_, ?_⟩, ⟨?_, ?_⟩, ⟨?_, ?_⟩⟩
  · split <;> simp
  · split <;> rfl
  · split <;> simp
  · split <;> rfl
  · split <;> simp
  · split <;> rfl
  · split
    · split <;> simp
    · simp
  · split
    · split <;> rfl
    · rfl

/-- Witness for C4's amended claim at an injection-shaped table name and a
column name with a space, on `dbA`. -/
theorem no_identifier_validation_witness :
    hasBadChar "x]; DROP TABLE t--" = true ∧
    ((Event.execSQL (schemaQueryText "x]; DROP TABLE t--") ∈
        (get_table_schema dbA "x]; DROP TABLE t--").2 ∧
      isValErr (get_table_schema dbA "x]; DROP TABLE t--").1 = false) ∧
    (Event.execSQL (primaryKeysQueryText "x]; DROP TABLE t--") ∈
        (get_primary_keys dbA "x]; DROP TABLE t--").2 ∧
      isValErr (get_primary_keys dbA "x]; DROP TABLE t--").1 = false) ∧
    (Event.execSQL (rowCountQueryText "x]; DROP TABLE t--") ∈
        (get_table_row_count dbA "x]; DROP TABLE t--").2 ∧
      isValErr (get_table_row_count dbA "x]; DROP TABLE t--").1 = false) ∧
    (Event.execSQL (distinctQueryText "x]; DROP TABLE t--" "a b") ∈
        (get_distinct_values dbA "x]; DROP TABLE t--" "a b").2 ∧
      isValErr (get_distinct_values dbA "x]; DROP TABLE t--" "a b").1 =
        false)) :=
  ⟨by decide,
    no_identifier_validation dbA "x]; DROP TABLE t--" "a b" (by decide)⟩

/-- C6: the URL composer maps each known visual-hint key to its fixed page
name, maps every other hint to the default page name, and returns the URL
embedding the workspace identifier, the report identifier, the selected
page name, and the filter expression carrying the run identifier. -/
theorem generate_powerbi_url_spec (ws rp rid hint : String)
    (h : hint ∉ ["linea", "barras", "barras_agrupadas", "pie"]) :
    pageNameOf "linea" = "Line" ∧ pageNameOf "barras" = "Bar" ∧
    pageNameOf "barras_agrupadas" = "StackedBar" ∧
    pageNameOf "pie" = "PieChart" ∧
    pageNameOf hint = "ReportSectionBarras" ∧
    generate_powerbi_url ws rp rid hint =
      "https://app.powerbi.com/groups/" ++ ws ++ "/reports/" ++ rp
        ++ "?pageName=" ++ pageNameOf hint
        ++ "&filter=agent_output/run_id%20eq%20'" ++ rid ++ "'" := by
  refine ⟨rfl, rfl, rfl, rfl, ?_, rfl⟩
  simp only [List.mem_cons, List.not_mem_nil, or_false, not_or] at h
  obtain ⟨h1, h2, h3, h4⟩ := h
  have e1 : (hint == "linea") = false := beq_eq_false_iff_ne.mpr h1
  have e2 : (hint == "barras") = false := beq_eq_false_iff_ne.mpr h2
  have e3 : (hint == "barras_agrupadas") = false := beq_eq_false_iff_ne.mpr h3
  have e4 : (hint == "pie") = false := beq_eq_false_iff_ne.mpr h4
  simp [pageNameOf, VISUAL_PAGE_MAP, List.lookup, e1, e2, e3, e4]

/-- Witness for C6 at the unknown hint `tabla`. -/
theorem generate_powerbi_url_spec_witness :
    "tabla" ∉ ["linea", "barras", "barras_agrupadas", "pie"] ∧
    (pageNameOf "linea" = "Line" ∧ pageNameOf "barras" = "Bar" ∧
    pageNameOf "barras_agrupadas" = "StackedBar" ∧
    pageNameOf "pie" = "PieChart" ∧
    pageNameOf "tabla" = "ReportSectionBarras" ∧
    generate_powerbi_url "W1" "R1" "RID-1" "tabla" =
      "https://app.powerbi.com/groups/" ++ "W1" ++ "/reports/" ++ "R1"
        ++ "?pageName=" ++ pageNameOf "tabla"
        ++ "&filter=agent_output/run_id%20eq%20'" ++ "RID-1" ++ "'") :=
  ⟨by decide, generate_powerbi_url_spec "W1" "R1" "RID-1" "tabla" (by decide)⟩

/-- C9: the URL composer is pure and total — its result is independent of
the database, it always succeeds with the composed URL, and its trace
contains no driver event (no connection, no SQL). -/
theorem generate_powerbi_url_tool_pure (db db' : Database)
    (ws rp rid hint : String) :
    generate_powerbi_url_tool db ws rp rid hint =
      generate_powerbi_url_tool db' ws rp rid hint ∧
    (generate_powerbi_url_tool db ws rp rid hint).1 =
      .ok (generate_powerbi_url ws rp rid hint) ∧
    (generate_powerbi_url_tool db ws rp rid hint).2 = [] :=
  ⟨rfl, rfl, rfl⟩

/-- C10: when the distinct-value query succeeds with a non-empty value set,
every value is rendered with Python's `str` conversion — one line per value,
none omitted — and a NULL among the distinct values is rendered as the
literal `"None"`. -/
theorem get_distinct_values_renders_null (db : Database) (t c : String)
    (ht : db.salesTables t = true) (hc : db.columnOf t c = true)
    (hne : db.distinctOf t c ≠ []) :
    (get_distinct_values db t c).1 =
      .ok (pyJoin "\n" ((db.distinctOf t c).map pyStr)) ∧
    ((db.distinctOf t c).map pyStr).length = (db.distinctOf t c).length ∧
    ∀ i (hi : i < (db.distinctOf t c).length),
      (db.distinctOf t c).get ⟨i, hi⟩ = Value.null →
      ((db.distinctOf t c).map pyStr).get ⟨i, by simpa using hi⟩ =
        "None" := by
  refine ⟨?_, by simp, ?_⟩
  · unfold get_distinct_values
    simp [ht, hc, hne]
  · intro i hi hnull
    simp only [List.get_eq_getElem, List.getElem_map] at hnull ⊢
    rw [hnull]
    rfl

/-- Witness for C10 at table `Product`, column `Color` of `dbC`, whose
distinct values are `'Red'` and NULL. -/
theorem get_distinct_values_renders_null_witness :
    (dbC.salesTables "Product" = true ∧ dbC.columnOf "Product" "Color" = true
      ∧ dbC.distinctOf "Product" "Color" ≠ []) ∧
    ((get_distinct_values dbC "Product" "Color").1 =
      .ok (pyJoin "\n" ((dbC.distinctOf "Product" "Color").map pyStr)) ∧
    ((dbC.distinctOf "Product" "Color").map pyStr).length =
      (dbC.distinctOf "Product" "Color").length ∧
    ∀ i (hi : i < (dbC.distinctOf "Product" "Color").length),
      (dbC.distinctOf "Product" "Color").get ⟨i, hi⟩ = Value.null →
      ((dbC.distinctOf "Product" "Color").map pyStr).get
        ⟨i, by simpa using hi⟩ = "None") :=
  ⟨⟨rfl, rfl, by decide⟩,
    get_distinct_values_renders_null dbC "Product" "Color" rfl rfl
      (by decide)⟩

theorem percentDecodeList_no_percent :
    ∀ l : List Char, '%' ∉ l → percentDecodeList l = l
  | [], _ => rfl
  | [_], _ => rfl
  | [_, _], _ => rfl
  | c :: h₁ :: h₂ :: rest, h => by
    have hc : ¬ c = '%' := fun hcc => h (by simp [hcc])
    have hr : '%' ∉ h₁ :: h₂ :: rest :=
      fun hm => h (List.mem_cons_of_mem _ hm)
    rw [percentDecodeList, if_neg hc,
      percentDecodeList_no_percent (h₁ :: h₂ :: rest) hr]

theorem percentDecode_no_percent (s : String) (h : '%' ∉ s.toList) :
    percentDecode s = s := by
  unfold percentDecode
  rw [percentDecodeList_no_percent s.toList h]
  rfl

/-- C5 counterexample: for the run identifier `a%25b`, the generated URL
carries the identifier verbatim in the filter segment, and URL-decoding
that filter field yields `a%b`, not the original `a%25b` — the round-trip
fails, because the composer percent-encodes nothing of the run identifier. -/
theorem powerbi_roundtrip_counterexample :
    runIdField (generate_powerbi_url "W1" "R1" "a%25b" "pie") = "a%25b" ∧
    percentDecode (runIdField (generate_powerbi_url "W1" "R1" "a%25b" "pie"))
      ≠ "a%25b" := by
  refine ⟨by decide, by decide⟩

/-- C5 amended: the composer interpolates the run identifier verbatim — the
only pre-escaped characters are the two fixed `%20` spaces around `eq` — so
URL-decoding recovers the identifier exactly when it contains no `%`
character (and in general the round-trip fails, as the counterexample
shows). -/
theorem powerbi_url_run_id_verbatim (ws rp rid hint : String)
    (h : '%' ∉ rid.toList) :
    generate_powerbi_url ws rp rid hint =
      "https://app.powerbi.com/groups/" ++ ws ++ "/reports/" ++ rp
        ++ "?pageName=" ++ pageNameOf hint
        ++ "&filter=agent_output/run_id%20eq%20'" ++ rid ++ "'" ∧
    percentDecode rid = rid :=
  ⟨rfl, percentDecode_no_percent rid h⟩

/-- Witness for C5's amended claim at the percent-free identifier
`abc_123`. -/
theorem powerbi_url_run_id_verbatim_witness :
    '%' ∉ ("abc_123" : String).toList ∧
    (generate_powerbi_url "W1" "R1" "abc_123" "linea" =
      "https://app.powerbi.com/groups/" ++ "W1" ++ "/reports/" ++ "R1"
        ++ "?pageName=" ++ pageNameOf "linea"
        ++ "&filter=agent_output/run_id%20eq%20'" ++ "abc_123" ++ "'" ∧
    percentDecode "abc_123" = "abc_123") :=
  ⟨by decide,
    powerbi_url_run_id_verbatim "W1" "R1" "abc_123" "linea" (by decide)⟩

end Delfos
